import Mathlib

/-!
Shallow embedding of the AWS CDK stack declared in src/lib/cdk-test-stack.ts.

The repository is a single declarative infrastructure stack: a VPC, a
security group with one ingress rule, an ECR repository, an ECS cluster,
an IAM task role, a Fargate task definition with one container, a Fargate
service, and a three-stage CodePipeline (CodeCommit source, CodeBuild
build, ECS deploy).  Each CDK construct instantiation is embedded as a
concrete Lean value whose fields mirror the property object passed in the
source; construct references (for example the VPC passed to the security
group) are embedded structurally, so two constructs reference the same
network exactly when the embedded values coincide.

Deploy-time CDK tokens (for example the ECR repository URI, unknown at
synthesis time) are embedded as unresolved-token placeholder strings, as
CDK itself renders them before resolution.
-/

namespace CdkTest

/-- ec2.SubnetType values used by the stack. -/
inductive SubnetType where
  | PUBLIC
  | PRIVATE_WITH_EGRESS
  | PRIVATE_ISOLATED
  deriving DecidableEq

/-- One entry of the subnetConfiguration list passed to ec2.Vpc. -/
structure SubnetConfiguration where
  cidrMask : Nat
  name : String
  subnetType : SubnetType
  deriving DecidableEq

/-- ec2.Vpc as parameterized by the stack. -/
structure Vpc where
  constructId : String
  cidr : String
  maxAzs : Nat
  subnetConfiguration : List SubnetConfiguration
  deriving DecidableEq

/-- ec2.Peer: the stack only uses Peer.ipv4. -/
inductive Peer where
  | ipv4 (cidrIp : String)
  deriving DecidableEq

/-- ec2.Port: the stack only uses Port.tcp. -/
inductive Port where
  | tcp (port : Nat)
  deriving DecidableEq

/-- One ingress rule added with addIngressRule. -/
structure IngressRule where
  peer : Peer
  port : Port
  deriving DecidableEq

/-- ec2.SecurityGroup together with the ingress rules added to it. -/
structure SecurityGroup where
  constructId : String
  vpc : Vpc
  allowAllOutbound : Bool
  securityGroupName : String
  ingressRules : List IngressRule
  deriving DecidableEq

/-- ecr.Repository. -/
structure EcrRepository where
  constructId : String
  repositoryName : String
  deriving DecidableEq

/-- The repositoryUri attribute is a deploy-time CDK token, unresolved at
synthesis time; it is embedded as the unresolved-token placeholder string
derived from the construct id. -/
def EcrRepository.repositoryUri (r : EcrRepository) : String :=
  "$\x7bToken[" ++ r.constructId ++ ".repositoryUri]\x7d"

/-- ecs.Cluster. -/
structure EcsCluster where
  constructId : String
  vpc : Vpc
  deriving DecidableEq

/-- iam.ServicePrincipal. -/
structure ServicePrincipal where
  service : String
  deriving DecidableEq

/-- One iam.PolicyStatement added with addToPolicy. -/
structure PolicyStatement where
  actions : List String
  resources : List String
  deriving DecidableEq

/-- iam.Role together with the managed policies and inline statements added
to it. -/
structure IamRole where
  constructId : String
  assumedBy : ServicePrincipal
  managedPolicyNames : List String
  policyStatements : List PolicyStatement
  deriving DecidableEq

/-- ecs.Compatibility value used by the stack. -/
inductive Compatibility where
  | FARGATE
  deriving DecidableEq

/-- ecs.NetworkMode value used by the stack. -/
inductive NetworkMode where
  | AWS_VPC
  deriving DecidableEq

/-- ecs.CpuArchitecture value used by the stack. -/
inductive CpuArchitecture where
  | ARM64
  deriving DecidableEq

/-- runtimePlatform property of the task definition. -/
structure RuntimePlatform where
  cpuArchitecture : CpuArchitecture
  deriving DecidableEq

/-- ecs.Protocol value used by the port mapping. -/
inductive EcsProtocol where
  | TCP
  deriving DecidableEq

/-- One port mapping of a container definition. -/
structure PortMapping where
  name : String
  containerPort : Nat
  hostPort : Nat
  protocol : EcsProtocol
  deriving DecidableEq

/-- ecs.ContainerImage: the stack only uses fromEcrRepository. -/
inductive ContainerImage where
  | fromEcrRepository (repository : EcrRepository)
  deriving DecidableEq

/-- One container added to the task definition with addContainer. -/
structure ContainerDefinition where
  name : String
  image : ContainerImage
  portMappings : List PortMapping
  essential : Bool
  deriving DecidableEq

/-- ecs.TaskDefinition together with the containers added to it. -/
structure TaskDefinition where
  constructId : String
  family : String
  compatibility : Compatibility
  networkMode : NetworkMode
  cpu : String
  memoryMiB : String
  executionRole : IamRole
  taskRole : IamRole
  runtimePlatform : RuntimePlatform
  containers : List ContainerDefinition
  deriving DecidableEq

/-- ecs.FargateService. -/
structure FargateService where
  constructId : String
  cluster : EcsCluster
  taskDefinition : TaskDefinition
  desiredCount : Nat
  securityGroups : List SecurityGroup
  deriving DecidableEq

/-- codecommit.Repository. -/
structure CodeCommitRepository where
  constructId : String
  repositoryName : String
  deriving DecidableEq

/-- codepipeline.Artifact: the stack creates a single anonymous artifact;
artifacts are identified by allocation order. -/
structure Artifact where
  id : Nat
  deriving DecidableEq

/-- The phases object of the CodeBuild build specification: ordered command
lists for pre_build, build and post_build. -/
structure BuildPhases where
  pre_build : List String
  build : List String
  post_build : List String
  deriving DecidableEq

/-- The artifacts object of the build specification. -/
structure BuildArtifacts where
  files : List String
  deriving DecidableEq

/-- codebuild.BuildSpec.fromObject argument. -/
structure BuildSpec where
  version : String
  phases : BuildPhases
  artifacts : BuildArtifacts
  deriving DecidableEq

/-- All commands of a build specification, in execution order
(pre_build, then build, then post_build). -/
def BuildSpec.allCommands (b : BuildSpec) : List String :=
  b.phases.pre_build ++ b.phases.build ++ b.phases.post_build

/-- codebuild.PipelineProject. -/
structure PipelineProject where
  constructId : String
  role : IamRole
  buildSpec : BuildSpec
  deriving DecidableEq

/-- The three codepipeline_actions constructors used by the stack, each with
the fields passed in the source.  The CodeCommit source action declares an
output artifact; the CodeBuild action declares an input and a (possibly
empty) list of outputs; the ECS deploy action declares an input. -/
inductive PipelineAction where
  | codeCommitSource (actionName : String) (repository : CodeCommitRepository)
      (output : Artifact)
  | codeBuild (actionName : String) (project : PipelineProject)
      (input : Artifact) (outputs : List Artifact)
  | ecsDeploy (actionName : String) (service : FargateService)
      (input : Artifact)
  deriving DecidableEq

/-- The input artifact of an action, when it has one. -/
def PipelineAction.inputArtifact : PipelineAction → Option Artifact
  | .codeCommitSource _ _ _ => none
  | .codeBuild _ _ input _ => some input
  | .ecsDeploy _ _ input => some input

/-- The output artifacts declared on an action. -/
def PipelineAction.outputArtifacts : PipelineAction → List Artifact
  | .codeCommitSource _ _ output => [output]
  | .codeBuild _ _ _ outputs => outputs
  | .ecsDeploy _ _ _ => []

/-- One stage added to the pipeline with addStage. -/
structure PipelineStage where
  stageName : String
  actions : List PipelineAction
  deriving DecidableEq

/-- codepipeline.Pipeline together with the stages added to it, in order. -/
structure Pipeline where
  constructId : String
  pipelineName : String
  stages : List PipelineStage
  deriving DecidableEq

/-! ## The declared resources, in source order. -/

/-- Lines 17-27: the VPC. -/
def testAPIVPC : Vpc :=
  { constructId := "TestAPIVPC"
    cidr := "10.0.0.0/23"
    maxAzs := 1
    subnetConfiguration :=
      [{ cidrMask := 23, name := "PublicSubnet", subnetType := .PUBLIC }] }

/-- Lines 30-43: the security group, with the single ingress rule added on
line 40.  The peer address is the myIPAddress field of the env context
value, a parameter of the whole construction. -/
def testAPISecurityGroup (myIPAddress : String) : SecurityGroup :=
  { constructId := "TestAPISecurityGroup"
    vpc := testAPIVPC
    allowAllOutbound := true
    securityGroupName := "TestAPISecurityGroup"
    ingressRules := [{ peer := .ipv4 myIPAddress, port := .tcp 80 }] }

/-- Lines 46-52: the ECR repository. -/
def testAPIECRRepository : EcrRepository :=
  { constructId := "TestAPIECRRepository"
    repositoryName := "test-ecr-repository" }

/-- Lines 55-57: the ECS cluster. -/
def testAPIECSCluster : EcsCluster :=
  { constructId := "TestAPICluster", vpc := testAPIVPC }

/-- Lines 60-68: the task role with its managed policy. -/
def testAPITaskRole : IamRole :=
  { constructId := "TestAPITaskRole"
    assumedBy := { service := "ecs-tasks.amazonaws.com" }
    managedPolicyNames := ["service-role/AmazonECSTaskExecutionRolePolicy"]
    policyStatements := [] }

/-- Lines 84-95: the single container added to the task definition. -/
def testAPIContainer : ContainerDefinition :=
  { name := "test-api-task"
    image := .fromEcrRepository testAPIECRRepository
    portMappings :=
      [{ name := "test-api-80-tcp", containerPort := 80, hostPort := 80,
         protocol := .TCP }]
    essential := true }

/-- Lines 71-95: the task definition with its one container. -/
def testAPITask : TaskDefinition :=
  { constructId := "TestAPITaskDefinition"
    family := "test-api-family"
    compatibility := .FARGATE
    networkMode := .AWS_VPC
    cpu := "1024"
    memoryMiB := "3072"
    executionRole := testAPITaskRole
    taskRole := testAPITaskRole
    runtimePlatform := { cpuArchitecture := .ARM64 }
    containers := [testAPIContainer] }

/-- Lines 98-103: the Fargate service. -/
def testAPIService (myIPAddress : String) : FargateService :=
  { constructId := "TestAPIService"
    cluster := testAPIECSCluster
    taskDefinition := testAPITask
    desiredCount := 0
    securityGroups := [testAPISecurityGroup myIPAddress] }

/-- Lines 111-113: the CodeCommit repository. -/
def testAPIRepository : CodeCommitRepository :=
  { constructId := "TestAPIRepository", repositoryName := "test-api" }

/-- Line 114: the single anonymous pipeline artifact created by the stack. -/
def sourceOutput : Artifact := { id := 0 }

/-- Lines 115-119: the CodeCommit source action. -/
def sourceAction : PipelineAction :=
  .codeCommitSource "Source" testAPIRepository sourceOutput

/-- Lines 126-140: the CodeBuild role with its inline policy statement. -/
def testAPIBuildRole : IamRole :=
  { constructId := "TestAPIBuildRole"
    assumedBy := { service := "codebuild.amazonaws.com" }
    managedPolicyNames := []
    policyStatements :=
      [{ actions := ["ecr:GetDownloadUrlForLayer", "ecr:BatchGetImage",
                     "ecr:BatchCheckLayerAvailability"]
         resources := ["*"] }] }

/-! ## The build specification commands (lines 144-175), verbatim.
Brace and apostrophe characters inside the command strings are written with
\x escapes; the bracketed Japanese text in the login command is a literal
placeholder present in the source. -/

/-- Line 149: registry login command. -/
def loginCommand : String :=
  "aws ecr get-login-password --region $AWS_DEFAULT_REGION | docker login --username AWS --password-stdin  [repositoryUriからリポジトリ名を削除した文字列]"

/-- Line 150: sets REPOSITORY_URI from the interpolated repository URI. -/
def setRepositoryUriCommand (repositoryUri : String) : String :=
  "REPOSITORY_URI=" ++ repositoryUri

/-- Line 151: derives the 7-character commit hash. -/
def setCommitHashCommand : String :=
  "COMMIT_HASH=$(echo $CODEBUILD_RESOLVED_SOURCE_VERSION | cut -c 1-7)"

/-- Line 152: sets IMAGE_TAG to the commit hash, defaulting to latest. -/
def setImageTagCommand : String :=
  "IMAGE_TAG=$\x7bCOMMIT_HASH:=latest\x7d"

/-- Line 160: builds the image under the latest tag. -/
def dockerBuildCommand : String :=
  "docker build -t $REPOSITORY_URI:latest ."

/-- Line 161: tags the built image with the commit-hash tag. -/
def dockerTagCommand : String :=
  "docker tag $REPOSITORY_URI:latest $REPOSITORY_URI:$IMAGE_TAG"

/-- Line 166: pushes the latest tag. -/
def pushLatestCommand : String :=
  "docker push $REPOSITORY_URI:latest"

/-- Line 167: pushes the commit-hash tag. -/
def pushImageTagCommand : String :=
  "docker push $REPOSITORY_URI:$IMAGE_TAG"

/-- Line 168: writes the imagedefinitions.json manifest naming the new
image. -/
def emitManifestCommand : String :=
  "printf \x27[\x7b\"name\":\"next-container-task\",\"imageUri\":\"%s\"\x7d]\x27 $REPOSITORY_URI:latest > imagedefinitions.json"

/-- Lines 144-175: the build specification object, parameterized by the
repository URI interpolated on line 150. -/
def testAPIBuildSpec (repositoryUri : String) : BuildSpec :=
  { version := "0.2"
    phases :=
      { pre_build :=
          [loginCommand, setRepositoryUriCommand repositoryUri,
           setCommitHashCommand, setImageTagCommand]
        build :=
          ["n install 16", "npm install", "npm test",
           dockerBuildCommand, dockerTagCommand]
        post_build :=
          [pushLatestCommand, pushImageTagCommand, emitManifestCommand] }
    artifacts := { files := ["imagedefinitions.json"] } }

/-- Lines 142-176: the CodeBuild project. -/
def buildProject : PipelineProject :=
  { constructId := "TestAPIBuild"
    role := testAPIBuildRole
    buildSpec := testAPIBuildSpec testAPIECRRepository.repositoryUri }

/-- Lines 177-181: the CodeBuild action.  Its input is sourceOutput and it
declares no output artifacts (the outputs property is absent in the
source). -/
def buildAction : PipelineAction :=
  .codeBuild "Build" buildProject sourceOutput []

/-- Lines 188-192: the ECS deploy action.  Its input, as written in the
source, is sourceOutput. -/
def deployAction (myIPAddress : String) : PipelineAction :=
  .ecsDeploy "Deploy" (testAPIService myIPAddress) sourceOutput

/-- Lines 106-196: the pipeline with its three stages in the order they are
added. -/
def testAPIPipeline (myIPAddress : String) : Pipeline :=
  { constructId := "TestAPIPipeline"
    pipelineName := "test-api-pipeline"
    stages :=
      [{ stageName := "Source", actions := [sourceAction] },
       { stageName := "Build", actions := [buildAction] },
       { stageName := "Deploy", actions := [deployAction myIPAddress] }] }

/-- All resources of the stack, bundled as the constructor of CdkTestStack
produces them once the context value is available. -/
structure CdkTestStack where
  testAPIVPC : Vpc
  testAPISecurityGroup : SecurityGroup
  testAPIECRRepository : EcrRepository
  testAPIECSCluster : EcsCluster
  testAPITaskRole : IamRole
  testAPITask : TaskDefinition
  testAPIService : FargateService
  testAPIRepository : CodeCommitRepository
  testAPIBuildRole : IamRole
  buildProject : PipelineProject
  testAPIPipeline : Pipeline
  deriving DecidableEq

/-- The stack produced for a given allow-listed address. -/
def cdkTestStack (myIPAddress : String) : CdkTestStack :=
  { testAPIVPC := testAPIVPC
    testAPISecurityGroup := testAPISecurityGroup myIPAddress
    testAPIECRRepository := testAPIECRRepository
    testAPIECSCluster := testAPIECSCluster
    testAPITaskRole := testAPITaskRole
    testAPITask := testAPITask
    testAPIService := testAPIService myIPAddress
    testAPIRepository := testAPIRepository
    testAPIBuildRole := testAPIBuildRole
    buildProject := buildProject
    testAPIPipeline := testAPIPipeline myIPAddress }

/-- The shape of the env context value the deployer supplies: an object
with a myIPAddress field (line 41 reads tryGetContext of the key env and
then its myIPAddress property). -/
structure EnvContext where
  myIPAddress : String
  deriving DecidableEq

/-- Lines 13-197: constructing the stack from the deployment context.
tryGetContext returns undefined when the env key is absent, and the
property access .myIPAddress on undefined then throws a TypeError, so
construction fails before any resource is declared; embedded as an
Except value. -/
def buildCdkTestStack : Option EnvContext → Except String CdkTestStack
  | none =>
      .error "TypeError: Cannot read properties of undefined (reading myIPAddress)"
  | some env => .ok (cdkTestStack env.myIPAddress)

/-- The characters after the first slash of a CIDR string, provided no
further slash follows. -/
def maskDigits : List Char → Option (List Char)
  | [] => none
  | '/' :: rest => if rest.all (fun c => c ≠ '/') then some rest else none
  | _ :: rest => maskDigits rest

/-- The prefix length of an IPv4 CIDR string: the digits after the slash,
read as a number. -/
def cidrMaskOf (cidr : String) : Option Nat :=
  (maskDigits cidr.data).bind fun ds =>
    if ds.isEmpty then none
    else if ds.all Char.isDigit then
      some (ds.foldl (fun n c => 10 * n + (c.toNat - 48)) 0)
    else none

/-- The six build-script steps enumerated by the specification sentence
about the build stage, in the order the specification lists them. -/
def claimedBuildSteps : List String :=
  [loginCommand, dockerBuildCommand, dockerTagCommand,
   pushLatestCommand, pushImageTagCommand, emitManifestCommand]

/-! ## Theorems settling the claims. -/

/-- Claim C1 (evaluation of the code at the divergence): the deploy stage
action as declared takes sourceOutput — the output artifact of the source
action — as its input, and the build action declares no output artifact at
all, so the build manifest artifact is never wired into the deploy action.
This contradicts the claim that the EcsDeployAction input is the build
action output. -/
theorem c1_deploy_input_is_source_output (ip : String) :
    (deployAction ip).inputArtifact = some sourceOutput ∧
    sourceAction.outputArtifacts = [sourceOutput] ∧
    buildAction.outputArtifacts = [] :=
  ⟨rfl, rfl, rfl⟩

/-- Claim C2 (counterexample): the ordered command list of the build
specification is not exactly the six steps enumerated by the claim (login,
build, tag, push latest, push commit tag, emit manifest): the script also
contains variable assignments, a Node install, npm install and npm test. -/
theorem c2_commands_not_exactly_claimed_steps :
    ¬ buildProject.buildSpec.allCommands = claimedBuildSteps := by
  intro h
  exact absurd (congrArg List.length h) (by decide)

/-- Claim C2 (amended): the build specification commands contain, in order,
the six claimed steps — registry login, docker build, commit-hash tag, push
of the latest tag, push of the commit-hash tag, manifest emission —
interleaved with additional commands (shell variable assignments, Node 16
install, npm install, npm test); restricting the command list to the
claimed steps yields them exactly in the claimed order, and
imagedefinitions.json is the declared artifact file. -/
theorem c2_steps_present_in_order :
    buildProject.buildSpec.allCommands =
      [loginCommand] ++
      [setRepositoryUriCommand testAPIECRRepository.repositoryUri,
       setCommitHashCommand, setImageTagCommand] ++
      ["n install 16", "npm install", "npm test"] ++
      [dockerBuildCommand, dockerTagCommand] ++
      [pushLatestCommand, pushImageTagCommand] ++
      [emitManifestCommand] ∧
    buildProject.buildSpec.allCommands.filter
        (fun c => decide (c ∈ claimedBuildSteps)) = claimedBuildSteps ∧
    buildProject.buildSpec.artifacts.files = ["imagedefinitions.json"] := by
  refine ⟨rfl, ?_, rfl⟩
  decide

/-- Claim C3: the pipeline is exactly the ordered composition of the
Source, Build and Deploy stages, in that order; the source stage action
reads the CodeCommit repository and the build stage action consumes the
source stage output artifact. -/
theorem c3_pipeline_stage_order (ip : String) :
    (testAPIPipeline ip).stages.map PipelineStage.stageName =
      ["Source", "Build", "Deploy"] ∧
    (testAPIPipeline ip).stages.map PipelineStage.actions =
      [[sourceAction], [buildAction], [deployAction ip]] ∧
    sourceAction =
      .codeCommitSource "Source" testAPIRepository sourceOutput ∧
    buildAction.inputArtifact = some sourceOutput :=
  ⟨rfl, rfl, rfl, rfl⟩

/-- Claim C4: the service is created with desiredCount 0, bound to the task
definition and the cluster, and its only security group is the one carrying
the port-80 ingress rule. -/
theorem c4_service_binding (ip : String) :
    (cdkTestStack ip).testAPIService.desiredCount = 0 ∧
    (cdkTestStack ip).testAPIService.taskDefinition =
      (cdkTestStack ip).testAPITask ∧
    (cdkTestStack ip).testAPIService.cluster =
      (cdkTestStack ip).testAPIECSCluster ∧
    (cdkTestStack ip).testAPIService.securityGroups =
      [(cdkTestStack ip).testAPISecurityGroup] ∧
    (cdkTestStack ip).testAPISecurityGroup.ingressRules =
      [{ peer := .ipv4 ip, port := .tcp 80 }] :=
  ⟨rfl, rfl, rfl, rfl, rfl⟩

/-- Claim C5: the security group declares exactly one ingress rule, and it
permits TCP port 80 from the single address supplied by the deployment
context (the myIPAddress field of the env context value). -/
theorem c5_single_ingress_rule (env : EnvContext) :
    (cdkTestStack env.myIPAddress).testAPISecurityGroup.ingressRules =
      [{ peer := .ipv4 env.myIPAddress, port := .tcp 80 }] :=
  rfl

/-- Claim C6: the task definition declares 1024 CPU units, 3072 MiB memory,
ARM64 architecture and the AWS_VPC network mode, and carries exactly one
container, which exposes port 80 and pulls its image from the stack's own
ECR repository. -/
theorem c6_task_definition_shape :
    testAPITask.cpu = "1024" ∧
    testAPITask.memoryMiB = "3072" ∧
    testAPITask.runtimePlatform.cpuArchitecture = .ARM64 ∧
    testAPITask.networkMode = .AWS_VPC ∧
    testAPITask.containers = [testAPIContainer] ∧
    testAPIContainer.portMappings.map PortMapping.containerPort = [80] ∧
    testAPIContainer.image = .fromEcrRepository testAPIECRRepository :=
  ⟨rfl, rfl, rfl, rfl, rfl, rfl, rfl⟩

/-- Claim C7: the invariant holds for every context value — the security
group attached to the service is created in the same VPC the cluster is
bound to, and the service references exactly that security group and that
cluster. -/
theorem c7_service_network_consistency (ip : String) :
    (cdkTestStack ip).testAPIService.securityGroups =
      [(cdkTestStack ip).testAPISecurityGroup] ∧
    (cdkTestStack ip).testAPIService.cluster =
      (cdkTestStack ip).testAPIECSCluster ∧
    (cdkTestStack ip).testAPISecurityGroup.vpc =
      (cdkTestStack ip).testAPIECSCluster.vpc :=
  ⟨rfl, rfl, rfl⟩

/-- Claim C8: the VPC is declared with the single /23 range, one
availability zone, and exactly one subnet configuration, of type public,
whose mask equals the mask of the VPC range. -/
theorem c8_vpc_single_public_range :
    testAPIVPC.cidr = "10.0.0.0/23" ∧
    testAPIVPC.maxAzs = 1 ∧
    testAPIVPC.subnetConfiguration =
      [{ cidrMask := 23, name := "PublicSubnet", subnetType := .PUBLIC }] ∧
    cidrMaskOf testAPIVPC.cidr = some 23 := by
  refine ⟨rfl, rfl, rfl, ?_⟩
  decide

/-- Claim C9: when the deployer supplies no env context value, stack
construction fails with a thrown TypeError and produces no topology; when
the context is supplied, the constructed stack uses exactly the supplied
address (no default is substituted). -/
theorem c9_missing_context_fails :
    buildCdkTestStack none =
      .error "TypeError: Cannot read properties of undefined (reading myIPAddress)" ∧
    ∀ env : EnvContext,
      buildCdkTestStack (some env) = .ok (cdkTestStack env.myIPAddress) :=
  ⟨rfl, fun _ => rfl⟩

/-- Claim C10: the security group is created with allowAllOutbound set to
true, alongside the single inbound port-80 rule. -/
theorem c10_allow_all_outbound (ip : String) :
    (testAPISecurityGroup ip).allowAllOutbound = true ∧
    (testAPISecurityGroup ip).ingressRules =
      [{ peer := .ipv4 ip, port := .tcp 80 }] :=
  ⟨rfl, rfl⟩

end CdkTest
